import Mathlib

/-!
Verification of the orchestration skeleton of `examples/bpti/prod/bpti-restart.py`:
a GCMC/MD restart driver script.  The script is glue code over external
molecular-mechanics and GCMC-sampling libraries, so the embedding models the
script as the sequence of calls it issues (a trace of events), together with
the literal file names and numeric parameters it wires into those calls.
-/

namespace BptiRestart

/-- A reference-atom selection dictionary, as in the script's `ref_atoms`
(`name` / `resname` / `resid` string keys). -/
structure AtomSel where
  name : String
  resname : String
  resid : String
deriving DecidableEq

/-- The script's literal `ref_atoms` list (lines 41-42):
CA of TYR 10 and CA of ASN 43. -/
def ref_atoms : List AtomSel :=
  [⟨"CA", "TYR", "10"⟩, ⟨"CA", "ASN", "43"⟩]

/-- The observable calls the script issues against the simulation context and
the GCMC sampler, in the order it issues them. -/
inductive Event where
  | setPositions
  | setVelocities
  | setBoxVectors
  | initialise (ghosts : List Nat)
  | step (n : Nat)
  | move (n : Nat)
  | report
deriving DecidableEq

/-- One iteration of the run loop (lines 83-88): `simulation.step(1000)`,
then `gcmc_mover.move(simulation.context, 100)`, then
`gcmc_mover.report(simulation)`. -/
def cycleEvents : List Event :=
  [Event.step 1000, Event.move 100, Event.report]

/-- The events of `k` iterations of the run loop (`for i in range(k)`,
with `k = 100` in the script). -/
def runLoopTrace (k : Nat) : List Event :=
  (List.replicate k cycleEvents).flatten

/-- The call trace of the script, as a function of the ghost history read by
`grand.utils.read_ghosts_from_file` (line 30).  The script sets positions and
velocities from the restart file and box vectors from the topology
(lines 66-68), calls `gcmc_mover.initialise(simulation.context, ghosts[-1])`
(line 71), then runs the 100-cycle loop.  `ghosts[-1]` on an empty list is a
Python `IndexError`, modelled as the error branch. -/
def scriptTrace (ghosts : List (List Nat)) : Except String (List Event) :=
  if h : ghosts = [] then
    Except.error "IndexError: list index out of range"
  else
    Except.ok ([Event.setPositions, Event.setVelocities, Event.setBoxVectors,
                Event.initialise (ghosts.getLast h)] ++ runLoopTrace 100)

/-- Recogniser for MD propagation calls. -/
def isStepCall : Event → Bool
  | Event.step _ => true
  | _ => false

/-- Recogniser for GCMC move-batch calls. -/
def isMoveCall : Event → Bool
  | Event.move _ => true
  | _ => false

/-- Recogniser for report calls. -/
def isReportCall : Event → Bool
  | Event.report => true
  | _ => false

/-- Recogniser for sampler-initialisation calls. -/
def isInitialiseCall : Event → Bool
  | Event.initialise _ => true
  | _ => false

theorem countP_join_replicate {α : Type} (p : α → Bool) (l : List α) :
    ∀ n : Nat, ((List.replicate n l).flatten.countP p) = n * l.countP p := by
  intro n
  induction n with
  | zero => simp
  | succ k ih =>
      simp [List.replicate_succ, List.flatten_cons, List.countP_append, ih,
            Nat.succ_mul, Nat.add_comm]

/-- Claim C1: for any nonempty ghost history, the script's trace is the fixed
setup prefix followed by exactly 100 copies of
`[step 1000, move 100, report]`, so 100 step calls, 100 move calls and
100 report calls occur, in that per-cycle order, and no other
step/move/report calls appear in the trace. -/
theorem run_loop_structure (g : List (List Nat)) (h : g ≠ []) :
    ∃ tr, scriptTrace g = Except.ok tr ∧
      tr = [Event.setPositions, Event.setVelocities, Event.setBoxVectors,
            Event.initialise (g.getLast h)] ++ (List.replicate 100 cycleEvents).flatten ∧
      cycleEvents = [Event.step 1000, Event.move 100, Event.report] ∧
      tr.countP isStepCall = 100 ∧
      tr.countP isMoveCall = 100 ∧
      tr.countP isReportCall = 100 := by
  refine ⟨_, ?_, rfl, rfl, ?_, ?_, ?_⟩
  · simp [scriptTrace, h, runLoopTrace]
  · simp [List.countP_append, List.countP_cons, isStepCall,
          countP_join_replicate]
    rfl
  · simp [List.countP_append, List.countP_cons, isMoveCall,
          countP_join_replicate]
    rfl
  · simp [List.countP_append, List.countP_cons, isReportCall,
          countP_join_replicate]
    rfl

/-- Witness for C1 at the concrete one-frame ghost history `[[5]]`. -/
theorem run_loop_structure_witness :
    ∃ tr, scriptTrace [[5]] = Except.ok tr ∧
      tr = [Event.setPositions, Event.setVelocities, Event.setBoxVectors,
            Event.initialise ([[5]].getLast (by decide))] ++
           (List.replicate 100 cycleEvents).flatten ∧
      cycleEvents = [Event.step 1000, Event.move 100, Event.report] ∧
      tr.countP isStepCall = 100 ∧
      tr.countP isMoveCall = 100 ∧
      tr.countP isReportCall = 100 :=
  run_loop_structure [[5]] (by decide)

/-- Modelled from the spec: a freshly built Simulation Context is a mutable
state holder for positions, velocities and box vectors; `none` marks a slot
not yet set by the one-time state transfer. -/
structure SimContext (P V B : Type) where
  positions : Option P
  velocities : Option V
  boxVectors : Option B
deriving DecidableEq

/-- Modelled from the spec: `setPositions` stores the given positions in the
context. -/
def SimContext.setPositions {P V B : Type} (c : SimContext P V B) (p : P) :
    SimContext P V B :=
  { c with positions := some p }

/-- Modelled from the spec: `setVelocities` stores the given velocities in the
context. -/
def SimContext.setVelocities {P V B : Type} (c : SimContext P V B) (v : V) :
    SimContext P V B :=
  { c with velocities := some v }

/-- Modelled from the spec: `setPeriodicBoxVectors` stores the given box
vectors in the context. -/
def SimContext.setPeriodicBoxVectors {P V B : Type} (c : SimContext P V B)
    (b : B) : SimContext P V B :=
  { c with boxVectors := some b }

/-- A freshly built Simulation Context, before the state transfer. -/
def freshContext (P V B : Type) : SimContext P V B :=
  ⟨none, none, none⟩

/-- The Restart State loaded from the checkpoint file: positions, velocities
and box vectors (`rst7` in the script). -/
structure RestartState (P V B : Type) where
  positions : P
  velocities : V
  boxVectors : B
deriving DecidableEq

/-- The part of the Topology the state transfer reads: its periodic box
vectors (`pdb.topology.getPeriodicBoxVectors()` in the script). -/
structure TopologyData (B : Type) where
  boxVectors : B
deriving DecidableEq

/-- The script's one-time state transfer (lines 66-68):
`setPositions(rst7.getPositions())`, `setVelocities(rst7.getVelocities())`,
`setPeriodicBoxVectors(*pdb.topology.getPeriodicBoxVectors())` — positions
and velocities come from the restart file, box vectors from the topology. -/
def applyRestartState {P V B : Type} (rst : RestartState P V B)
    (top : TopologyData B) (c : SimContext P V B) : SimContext P V B :=
  ((c.setPositions rst.positions).setVelocities rst.velocities).setPeriodicBoxVectors
    top.boxVectors

/-- Counterexample to C2 as stated: with restart box vectors `1` and topology
box vectors `2`, the context after the transfer does not hold the restart
state's box vectors, so not all three slots equal the restart state's
recorded values. -/
theorem restart_roundtrip_cex :
    ¬ ((applyRestartState (⟨0, 0, 1⟩ : RestartState Nat Nat Nat) ⟨2⟩
          (freshContext Nat Nat Nat)).positions = some 0 ∧
       (applyRestartState (⟨0, 0, 1⟩ : RestartState Nat Nat Nat) ⟨2⟩
          (freshContext Nat Nat Nat)).velocities = some 0 ∧
       (applyRestartState (⟨0, 0, 1⟩ : RestartState Nat Nat Nat) ⟨2⟩
          (freshContext Nat Nat Nat)).boxVectors = some 1) := by
  decide

/-- Claim C2 (amended): applying the state transfer to a freshly built context
yields a context whose positions and velocities equal the restart state's
recorded values, and whose box vectors equal the topology's box vectors (not
the restart state's). -/
theorem restart_roundtrip {P V B : Type} (rst : RestartState P V B)
    (top : TopologyData B) :
    applyRestartState rst top (freshContext P V B) =
      ⟨some rst.positions, some rst.velocities, some top.boxVectors⟩ :=
  rfl

/-- Claim C3: for a nonempty loaded ghost history the trace's unique
initialise call carries exactly the history's last entry, and for an empty
history the script errors rather than defaulting to an empty ghost set. -/
theorem initialise_ghosts_last :
    (∀ (g : List (List Nat)) (h : g ≠ []),
      ∃ tr, scriptTrace g = Except.ok tr ∧
        Event.initialise (g.getLast h) ∈ tr ∧
        ∀ gs, Event.initialise gs ∈ tr → gs = g.getLast h) ∧
    scriptTrace [] = Except.error "IndexError: list index out of range" := by
  constructor
  · intro g h
    refine ⟨[Event.setPositions, Event.setVelocities, Event.setBoxVectors,
             Event.initialise (g.getLast h)] ++ runLoopTrace 100,
            by simp [scriptTrace, h], ?_, ?_⟩
    · simp [runLoopTrace]
    · intro gs hgs
      simp only [List.mem_append, List.mem_cons, List.not_mem_nil, or_false] at hgs
      rcases hgs with hgs | hgs
      · rcases hgs with h1 | h1 | h1 | h1 <;> simp_all
      · exfalso
        rw [runLoopTrace, List.mem_flatten] at hgs
        obtain ⟨l, hl, hmem⟩ := hgs
        rw [List.eq_of_mem_replicate hl] at hmem
        simp [cycleEvents] at hmem
  · rfl

/-- Witness for C3 at the concrete two-frame history `[[1, 2], [3]]`. -/
theorem initialise_ghosts_last_witness :
    ∃ tr, scriptTrace [[1, 2], [3]] = Except.ok tr ∧
      Event.initialise ([[1, 2], [3]].getLast (by decide)) ∈ tr ∧
      ∀ gs, Event.initialise gs ∈ tr → gs = [[1, 2], [3]].getLast (by decide) :=
  initialise_ghosts_last.1 [[1, 2], [3]] (by decide)

/-- A trajectory artifact in the post-processing pipeline: either a named
file on disk or an in-memory trajectory object (numbered by creation order;
the script binds both to the variable `trj`). -/
inductive Artifact where
  | file (path : String)
  | memory (id : Nat)
deriving DecidableEq

/-- A post-processing stage, with the trajectory artifact it consumes and the
trajectory artifact it produces. -/
structure Stage where
  name : String
  trajInput : Artifact
  output : Artifact
deriving DecidableEq

/-- The five post-processing calls of the script (lines 95-119), with their
trajectory dataflow: `shift_ghost_waters` reads the raw DCD and returns an
in-memory trajectory, `recentre_traj` transforms it, `align_traj` writes
`bpti-gcmc2.dcd`, and both `write_sphere_traj` and `cluster_waters` read
`bpti-gcmc2.dcd`. -/
def postStages : List Stage :=
  [⟨"shift_ghost_waters", Artifact.file "bpti-raw2.dcd", Artifact.memory 0⟩,
   ⟨"recentre_traj", Artifact.memory 0, Artifact.memory 1⟩,
   ⟨"align_traj", Artifact.memory 1, Artifact.file "bpti-gcmc2.dcd"⟩,
   ⟨"write_sphere_traj", Artifact.file "bpti-gcmc2.dcd",
      Artifact.file "gcmc_sphere2.pdb"⟩,
   ⟨"cluster_waters", Artifact.file "bpti-gcmc2.dcd",
      Artifact.file "bpti-clusts.pdb"⟩]

/-- Counterexample to C4 as stated: the fifth stage (`cluster_waters`) does
not consume the fourth stage's output (`gcmc_sphere2.pdb`); it consumes the
third stage's output (`bpti-gcmc2.dcd`). -/
theorem pipeline_chain_cex :
    ¬ ((postStages.get ⟨1, by decide⟩).trajInput = (postStages.get ⟨0, by decide⟩).output ∧
       (postStages.get ⟨2, by decide⟩).trajInput = (postStages.get ⟨1, by decide⟩).output ∧
       (postStages.get ⟨3, by decide⟩).trajInput = (postStages.get ⟨2, by decide⟩).output ∧
       (postStages.get ⟨4, by decide⟩).trajInput = (postStages.get ⟨3, by decide⟩).output) := by
  decide

/-- Claim C4 (amended): the post-processing pipeline is exactly five stages
in the fixed order shift / recentre / align / sphere / cluster; stages 2-4
each consume the immediately preceding stage's output, while stage 5
(`cluster_waters`) consumes stage 3's output (the aligned trajectory), not
stage 4's. -/
theorem pipeline_chain :
    postStages.length = 5 ∧
    (postStages.map Stage.name) =
      ["shift_ghost_waters", "recentre_traj", "align_traj",
       "write_sphere_traj", "cluster_waters"] ∧
    (postStages.get ⟨1, by decide⟩).trajInput = (postStages.get ⟨0, by decide⟩).output ∧
    (postStages.get ⟨2, by decide⟩).trajInput = (postStages.get ⟨1, by decide⟩).output ∧
    (postStages.get ⟨3, by decide⟩).trajInput = (postStages.get ⟨2, by decide⟩).output ∧
    (postStages.get ⟨4, by decide⟩).trajInput =
      (postStages.get ⟨2, by decide⟩).output := by
  decide

/-- The named file a stage writes, if any (`output=` argument or returned
file; the first two stages only return in-memory trajectories). -/
def Stage.outputFilePath (st : Stage) : Option String :=
  match st.output with
  | Artifact.file p => some p
  | Artifact.memory _ => none

/-- The named output files of the post-processing pipeline. -/
def postOutputFiles : List String :=
  postStages.filterMap Stage.outputFilePath

/-- The output files configured on the GCMC sampler (lines 47-52):
`ghostFile`, `log`, `dcd`, `rst`. -/
def samplerOutputFiles : List String :=
  ["gcmc-ghost-wats2.txt", "bpti-gcmc2.log", "bpti-raw2.dcd", "bpti-rst2.rst7"]

/-- The whole script: the run phase (its call trace) followed by the
post-processing pipeline; an error in the run phase propagates. -/
def fullRun (ghosts : List (List Nat)) :
    Except String (List Event × List Stage) :=
  match scriptTrace ghosts with
  | Except.error e => Except.error e
  | Except.ok tr => Except.ok (tr, postStages)

/-- Counterexample to C5 as stated: the post-processing pipeline configures
exactly 3 named output files (the aligned DCD, the sphere PDB and the cluster
PDB), not 5 — the first two stages produce unnamed in-memory trajectories. -/
theorem full_run_artifacts_cex :
    postOutputFiles = ["bpti-gcmc2.dcd", "gcmc_sphere2.pdb", "bpti-clusts.pdb"] ∧
    ¬ postOutputFiles.length = 5 := by
  decide

/-- Claim C5 (amended): with a topology carrying 2 reference atoms and a
ghost-history file with at least one recorded frame, the 100-cycle run
followed by the 5-stage post-processing pipeline completes without error and
configures exactly 3 named post-processing output artifacts, in addition to
the sampler's log, trajectory, restart and ghost files. -/
theorem full_run_artifacts (g : List (List Nat)) (h : g ≠ []) :
    ref_atoms.length = 2 →
    ∃ tr, fullRun g = Except.ok (tr, postStages) ∧
      postStages.length = 5 ∧
      postOutputFiles = ["bpti-gcmc2.dcd", "gcmc_sphere2.pdb", "bpti-clusts.pdb"] ∧
      postOutputFiles.length = 3 ∧
      samplerOutputFiles =
        ["gcmc-ghost-wats2.txt", "bpti-gcmc2.log", "bpti-raw2.dcd", "bpti-rst2.rst7"] := by
  intro _
  refine ⟨[Event.setPositions, Event.setVelocities, Event.setBoxVectors,
           Event.initialise (g.getLast h)] ++ runLoopTrace 100,
          ?_, by decide, by decide, by decide, by decide⟩
  simp [fullRun, scriptTrace, h]

/-- Witness for C5 at the concrete one-frame ghost history `[[7]]`. -/
theorem full_run_artifacts_witness :
    ([[7]] : List (List Nat)) ≠ [] ∧ ref_atoms.length = 2 ∧
    (∃ tr, fullRun [[7]] = Except.ok (tr, postStages) ∧
      postStages.length = 5 ∧
      postOutputFiles = ["bpti-gcmc2.dcd", "gcmc_sphere2.pdb", "bpti-clusts.pdb"] ∧
      postOutputFiles.length = 3 ∧
      samplerOutputFiles =
        ["gcmc-ghost-wats2.txt", "bpti-gcmc2.log", "bpti-raw2.dcd", "bpti-rst2.rst7"]) :=
  ⟨by decide, by decide, full_run_artifacts [[7]] (by decide) (by decide)⟩

/-- Claim C7: in every successful execution of the script the sampler's
initialise operation occurs exactly once in the call trace, and no move call
precedes it (every move lies strictly after the initialise call). -/
theorem initialise_once_before_moves (g : List (List Nat)) (h : g ≠ []) :
    ∃ tr, scriptTrace g = Except.ok tr ∧
      tr.countP isInitialiseCall = 1 ∧
      (tr.takeWhile (fun e => !isInitialiseCall e)).countP isMoveCall = 0 := by
  refine ⟨[Event.setPositions, Event.setVelocities, Event.setBoxVectors,
           Event.initialise (g.getLast h)] ++ runLoopTrace 100,
          by simp [scriptTrace, h], ?_, ?_⟩
  · simp [List.countP_append, List.countP_cons, isInitialiseCall, runLoopTrace,
          countP_join_replicate]
    decide
  · simp [List.takeWhile_cons, isInitialiseCall, List.countP_cons, isMoveCall]

/-- Witness for C7 at the concrete one-frame ghost history `[[2]]`. -/
theorem initialise_once_before_moves_witness :
    ∃ tr, scriptTrace [[2]] = Except.ok tr ∧
      tr.countP isInitialiseCall = 1 ∧
      (tr.takeWhile (fun e => !isInitialiseCall e)).countP isMoveCall = 0 :=
  initialise_once_before_moves [[2]] (by decide)

/-- The kind of call made inside one run-loop iteration. -/
inductive CallKind where
  | stepCall
  | moveCall
  | reportCall
deriving DecidableEq

/-- The events executed in a cycle up to and including a call of the given
kind (the loop body issues step, then move, then report). -/
def attemptedEvents : CallKind → List Event
  | CallKind.stepCall => [Event.step 1000]
  | CallKind.moveCall => [Event.step 1000, Event.move 100]
  | CallKind.reportCall => cycleEvents

/-- One iteration of the run loop against an oracle `f` telling which calls
succeed: the body issues step, move, report in order and stops at the first
failing call, returning the events issued and the failing kind, if any. -/
def cycleAttempt (f : Nat → CallKind → Bool) (i : Nat) :
    List Event × Option CallKind :=
  if f i CallKind.stepCall = false then
    ([Event.step 1000], some CallKind.stepCall)
  else if f i CallKind.moveCall = false then
    ([Event.step 1000, Event.move 100], some CallKind.moveCall)
  else if f i CallKind.reportCall = false then
    (cycleEvents, some CallKind.reportCall)
  else
    (cycleEvents, none)

/-- The run loop from iteration `i` with `n` iterations left: the script has
no try/except, so the first failing call ends the loop (and the script) at
once, with no retry and no recovery. -/
def loopFrom (f : Nat → CallKind → Bool) :
    Nat → Nat → List Event × Option (Nat × CallKind)
  | _, 0 => ([], none)
  | i, n + 1 =>
    match cycleAttempt f i with
    | (tr, some k) => (tr, some (i, k))
    | (_, none) =>
        let rest := loopFrom f (i + 1) n
        (cycleEvents ++ rest.1, rest.2)

/-- The script's `for i in range(100)` loop against the oracle `f`. -/
def runLoopFallible (f : Nat → CallKind → Bool) :
    List Event × Option (Nat × CallKind) :=
  loopFrom f 0 100

theorem loopFrom_skip (f : Nat → CallKind → Bool) :
    ∀ (i s n : Nat), i ≤ n →
      (∀ j, j < i → f (s + j) CallKind.stepCall = true ∧
        f (s + j) CallKind.moveCall = true ∧
        f (s + j) CallKind.reportCall = true) →
      loopFrom f s n =
        ((List.replicate i cycleEvents).flatten ++ (loopFrom f (s + i) (n - i)).1,
         (loopFrom f (s + i) (n - i)).2) := by
  intro i
  induction i with
  | zero => intro s n _ _; simp
  | succ i ih =>
      intro s n hin hj
      obtain ⟨m, rfl⟩ : ∃ m, n = m + 1 := ⟨n - 1, by omega⟩
      obtain ⟨hs, hm, hr⟩ := hj 0 (by omega)
      simp only [Nat.add_zero] at hs hm hr
      have hrec := ih (s + 1) m (by omega)
        (fun j hji => by
          have := hj (j + 1) (by omega)
          simpa [Nat.add_assoc, Nat.add_comm 1 j] using this)
      have hidx : s + 1 + i = s + (i + 1) := by omega
      have hsub : m + 1 - (i + 1) = m - i := by omega
      simp only [loopFrom, cycleAttempt, hs, hm, hr]
      simp [hrec, hidx, hsub, List.replicate_succ]

/-- Claim C6: if the first failure over the whole run happens at call kind
`k` of iteration `i`, then the loop's executed events are exactly the `i`
complete cycles before it plus the failing cycle truncated at the failing
call, and the result carries that failure: the error propagates, no call is
retried, and no later iteration executes. -/
theorem run_loop_fail_fast (f : Nat → CallKind → Bool) (i : Nat) (k : CallKind)
    (hi : i < 100)
    (hprev : ∀ j, j < i → f j CallKind.stepCall = true ∧
      f j CallKind.moveCall = true ∧ f j CallKind.reportCall = true)
    (hk : (k = CallKind.stepCall ∧ f i CallKind.stepCall = false) ∨
          (k = CallKind.moveCall ∧ f i CallKind.stepCall = true ∧
            f i CallKind.moveCall = false) ∨
          (k = CallKind.reportCall ∧ f i CallKind.stepCall = true ∧
            f i CallKind.moveCall = true ∧ f i CallKind.reportCall = false)) :
    runLoopFallible f =
      ((List.replicate i cycleEvents).flatten ++ attemptedEvents k,
       some (i, k)) := by
  have hskip := loopFrom_skip f i 0 100 (by omega)
    (fun j hji => by simpa using hprev j hji)
  obtain ⟨m, hm⟩ : ∃ m, 100 - i = m + 1 := ⟨100 - i - 1, by omega⟩
  rw [runLoopFallible, hskip]
  simp only [Nat.zero_add, hm]
  rcases hk with ⟨rfl, h1⟩ | ⟨rfl, h1, h2⟩ | ⟨rfl, h1, h2, h3⟩ <;>
    simp [loopFrom, cycleAttempt, h1, attemptedEvents] <;>
    simp_all [attemptedEvents]

/-- An oracle on which the move call of iteration 2 fails and every other
call succeeds. -/
def failAtCycle2Move : Nat → CallKind → Bool :=
  fun j c => if j = 2 ∧ c = CallKind.moveCall then false else true

/-- Witness for C6 on `failAtCycle2Move`: the loop executes cycles 0 and 1 in
full, then step and move of cycle 2, and stops with that failure. -/
theorem run_loop_fail_fast_witness :
    (2 : Nat) < 100 ∧
    runLoopFallible failAtCycle2Move =
      ((List.replicate 2 cycleEvents).flatten ++ attemptedEvents CallKind.moveCall,
       some (2, CallKind.moveCall)) :=
  ⟨by decide,
   run_loop_fail_fast failAtCycle2Move 2 CallKind.moveCall (by decide)
     (by decide) (by decide)⟩

/-- Modelled from the spec: each post-processing stage is a pure transform of
its input trajectory data and parameters — the external implementations of
`shift_ghost_waters`, `recentre_traj`, `align_traj`, `write_sphere_traj` and
`cluster_waters` are not part of this repository.  An interpretation assigns
to each stage the function it computes on trajectory data, abstracted as byte
lists; running a stage applies that function. -/
def runStage (interp : Stage → List Nat → List Nat) (st : Stage)
    (data : List Nat) : List Nat :=
  interp st data

/-- Claim C8: every post-processing stage is deterministic — two runs of a
stage of the pipeline with the same transform, the same stage parameters and
byte-identical input data produce byte-identical output data. -/
theorem stage_deterministic (interp1 interp2 : Stage → List Nat → List Nat)
    (st1 st2 : Stage) (d1 d2 : List Nat)
    (_hst : st1 ∈ postStages)
    (hi : interp1 = interp2) (hs : st1 = st2) (hd : d1 = d2) :
    runStage interp1 st1 d1 = runStage interp2 st2 d2 := by
  subst hi; subst hs; subst hd; rfl

/-- The identity transform, a concrete interpretation for the witness. -/
def idTransform : Stage → List Nat → List Nat :=
  fun _ d => d

/-- Witness for C8: two runs of the first stage under the identity transform
on the data `[1, 2, 3]` agree. -/
theorem stage_deterministic_witness :
    (postStages.get ⟨0, by decide⟩) ∈ postStages ∧
    runStage idTransform (postStages.get ⟨0, by decide⟩) [1, 2, 3] =
      runStage idTransform (postStages.get ⟨0, by decide⟩) [1, 2, 3] :=
  ⟨by decide,
   stage_deterministic idTransform idTransform _ _ [1, 2, 3] [1, 2, 3]
     (by decide) rfl rfl rfl⟩

/-- A GCMC sphere description: radius (in angstroms, as an exact rational)
and reference-atom selections. -/
structure GCMCSphereParams where
  radiusAngstrom : ℚ
  refAtoms : List AtomSel
deriving DecidableEq

/-- The sphere configured on `StandardGCMCSphereSampler` (lines 44-53):
`sphereRadius=4.2*angstroms`, `referenceAtoms=ref_atoms`. -/
def samplerSphereParams : GCMCSphereParams :=
  ⟨42 / 10, ref_atoms⟩

/-- The sphere passed to `write_sphere_traj` (lines 106-111): `radius=4.2`,
`ref_atoms=ref_atoms`. -/
def sphereTrajParams : GCMCSphereParams :=
  ⟨42 / 10, ref_atoms⟩

/-- The sphere passed to `cluster_waters` (lines 114-119):
`sphere_radius=4.2`, `ref_atoms=ref_atoms`. -/
def clusterSphereParams : GCMCSphereParams :=
  ⟨42 / 10, ref_atoms⟩

/-- Claim C9: the GCMC sphere definition is used consistently — the sampler,
the sphere-rendering stage and the water-clustering stage are configured with
the same radius (4.2 angstroms) and structurally equal reference-atom
selections (CA of TYR 10 and CA of ASN 43). -/
theorem sphere_config_consistent :
    samplerSphereParams = sphereTrajParams ∧
    sphereTrajParams = clusterSphereParams ∧
    samplerSphereParams.radiusAngstrom = 21 / 5 ∧
    samplerSphereParams.refAtoms = ref_atoms ∧
    ref_atoms.length = 2 :=
  ⟨rfl, rfl, by norm_num [samplerSphereParams], rfl, rfl⟩

/-- The files the script reads at startup (lines 24-30): topology, restart,
ghost history. -/
def inputFiles : List String :=
  ["bpti-ghosts.pdb", "bpti-rst.rst7", "gcmc-ghost-wats.txt"]

/-- The sampler's output-file configuration (lines 47-53). -/
structure SamplerFileConfig where
  ghostFile : String
  logFile : String
  dcdFile : String
  rstFile : String
  overwrite : Bool
deriving DecidableEq

/-- The literal sampler file configuration of the script:
`ghostFile='gcmc-ghost-wats2.txt'`, `log='bpti-gcmc2.log'`,
`dcd='bpti-raw2.dcd'`, `rst='bpti-rst2.rst7'`, `overwrite=False`. -/
def samplerFileConfig : SamplerFileConfig :=
  ⟨"gcmc-ghost-wats2.txt", "bpti-gcmc2.log", "bpti-raw2.dcd",
   "bpti-rst2.rst7", false⟩

/-- Every output path the script configures: the sampler's four output files
plus the post-processing output files. -/
def configuredOutputFiles : List String :=
  [samplerFileConfig.ghostFile, samplerFileConfig.logFile,
   samplerFileConfig.dcdFile, samplerFileConfig.rstFile] ++ postOutputFiles

/-- Claim C10: the run never writes to its own input files — the sampler is
configured with `overwrite=False` and its four output paths are exactly the
claimed ones, and no startup input path occurs among the output paths the
script configures. -/
theorem inputs_not_overwritten :
    samplerFileConfig.overwrite = false ∧
    samplerOutputFiles =
      [samplerFileConfig.ghostFile, samplerFileConfig.logFile,
       samplerFileConfig.dcdFile, samplerFileConfig.rstFile] ∧
    inputFiles.all (fun f => !(configuredOutputFiles.contains f)) = true := by
  decide

end BptiRestart
